import Mathlib

/-!
Shallow embedding of the watcher `AuditTemplate` versioned persistent object
(src/watcher/objects/audit_template.py).  The domain object delegates to a
base object framework (change tracking, loading, refresh) and to a database
adapter; those collaborators are not shipped under src/, so they are modelled
from the specification, each with a doc comment saying so.  Everything that
appears in src/ (the field schema, `get`/`get_by_id`/`get_by_uuid`, `create`,
`save`, `destroy`, `refresh`) is translated directly from the source.
-/

namespace Watcher

/-- Field values held by an object instance: integers, strings (UUIDs are
strings), an explicit null, and resolved object references (type name plus
backing numeric id) produced by eager relation loading. -/
inductive Value where
  | vint : Int → Value
  | vstr : String → Value
  | vnull : Value
  | vobj : String → Int → Value
deriving DecidableEq, Repr

/-- Association-list lookup over field/value pairs (first match wins). -/
def alookup : List (String × Value) → String → Option Value
  | [], _ => none
  | (g, w) :: rest, f => if g = f then some w else alookup rest f

/-- Association-list update: overwrite the first binding of `f`, or append. -/
def setValue : List (String × Value) → String → Value → List (String × Value)
  | [], f, v => [(f, v)]
  | (g, w) :: rest, f, v => if g = f then (f, v) :: rest else (g, w) :: setValue rest f v

theorem alookup_setValue_self (l : List (String × Value)) (f : String) (v : Value) :
    alookup (setValue l f v) f = some v := by
  induction l with
  | nil => simp [setValue, alookup]
  | cons p rest ih =>
    obtain ⟨g, w⟩ := p
    by_cases h : g = f
    · simp [setValue, h, alookup]
    · simp [setValue, h, alookup, ih]

theorem alookup_setValue_ne (l : List (String × Value)) (f g : String) (v : Value)
    (hne : g ≠ f) : alookup (setValue l f v) g = alookup l g := by
  induction l with
  | nil => simp [setValue, alookup, Ne.symm hne]
  | cons p rest ih =>
    obtain ⟨a, w⟩ := p
    by_cases h : a = f
    · subst h
      simp [setValue, alookup, Ne.symm hne]
    · by_cases hag : a = g
      · subst hag
        simp [setValue, h, alookup]
      · simp [setValue, h, alookup, hag, ih]

theorem alookup_map_fn (h : String → Value) (l : List String) (g : String) :
    alookup (l.map (fun f => (f, h f))) g = if g ∈ l then some (h g) else none := by
  induction l with
  | nil => simp [alookup]
  | cons a rest ih =>
    by_cases hag : a = g
    · subst hag
      simp [alookup]
    · have hga : g ≠ a := Ne.symm hag
      simp [alookup, hag, ih, hga]

/-- Identity values accepted by `get`: a numeric value or a string
(`audit_template_id` in the source is either an integer or a string). -/
inductive Identity where
  | inum : Int → Identity
  | istr : String → Identity
deriving DecidableEq, Repr

/-- Integer-shaped character lists: optional leading minus, then digits. -/
def isIntChars : List Char → Bool
  | [] => false
  | c :: rest =>
    if c = '-' then !rest.isEmpty && rest.all Char.isDigit
    else (c :: rest).all Char.isDigit

/-- Modelled from the spec: `watcher.common.utils.is_int_like` is not under
src/; §4.5 asks for "an integer-like string or numeric value". -/
def is_int_like : Identity → Bool
  | .inum _ => true
  | .istr s => isIntChars s.toList

/-- Hexadecimal digit check used by the UUID shape test. -/
def isHexChar (c : Char) : Bool :=
  c.isDigit || ('a' ≤ c && c ≤ 'f') || ('A' ≤ c && c ≤ 'F')

/-- UUID-shaped character lists: the canonical 8-4-4-4-12 dashed hex form. -/
def isUuidChars : List Char → Bool
  | a1 :: a2 :: a3 :: a4 :: a5 :: a6 :: a7 :: a8 :: d1 ::
    b1 :: b2 :: b3 :: b4 :: d2 ::
    c1 :: c2 :: c3 :: c4 :: d3 ::
    e1 :: e2 :: e3 :: e4 :: d4 ::
    g1 :: g2 :: g3 :: g4 :: g5 :: g6 :: g7 :: g8 :: g9 :: g10 :: g11 :: g12 :: [] =>
    (d1 == '-') && (d2 == '-') && (d3 == '-') && (d4 == '-') &&
    [a1, a2, a3, a4, a5, a6, a7, a8, b1, b2, b3, b4,
     c1, c2, c3, c4, e1, e2, e3, e4,
     g1, g2, g3, g4, g5, g6, g7, g8, g9, g10, g11, g12].all isHexChar
  | _ => false

/-- Modelled from the spec: `watcher.common.utils.is_uuid_like` is not under
src/; §4.5 and §8 describe "a UUID-shaped string" with the dashed canonical
form as example. -/
def is_uuid_like : Identity → Bool
  | .inum _ => false
  | .istr s => isUuidChars s.toList

/-- A UUID-shaped string is never integer-shaped: its ninth character is a
dash, which is neither a digit nor a leading minus sign. -/
theorem isUuidChars_not_int (cs : List Char) (h : isUuidChars cs = true) :
    isIntChars cs = false := by
  rw [isUuidChars.eq_def] at h
  split at h
  · rename_i a1 a2 a3 a4 a5 a6 a7 a8 d1 b1 b2 b3 b4 d2 c1 c2 c3 c4 d3 e1 e2 e3 e4 d4 g1 g2 g3 g4 g5 g6 g7 g8 g9 g10 g11 g12
    simp only [Bool.and_eq_true, beq_iff_eq, List.all_cons, List.all_nil] at h
    obtain ⟨⟨⟨⟨hd1, hd2⟩, hd3⟩, hd4⟩, hhex⟩ := h
    have ha1 : isHexChar a1 = true := hhex.1
    subst hd1
    by_cases hdash : a1 = '-'
    · subst hdash
      simp [isHexChar, Char.isDigit] at ha1
    · simp only [isIntChars, if_neg hdash]
      simp [List.all_cons, show Char.isDigit '-' = false from rfl]
  · simp at h

/-- The numeric value carried by an integer-like identity (used by the
adapter's id lookup). -/
def digitsVal (cs : List Char) : Nat :=
  cs.foldl (fun a c => a * 10 + (c.toNat - 48)) 0

def identToInt : Identity → Option Int
  | .inum n => some n
  | .istr s =>
    if isIntChars s.toList then
      match s.toList with
      | '-' :: rest => some (-(digitsVal rest : Int))
      | cs => some ((digitsVal cs : Int))
    else none

def identStr : Identity → String
  | .inum n => toString n
  | .istr s => s

/-- Error taxonomy (spec §7), restricted to the kinds these operations raise. -/
inductive WError where
  | invalidIdentity : Identity → WError
  | notFound : WError
  | fieldNotSet : WError
deriving DecidableEq, Repr

/-- Semantic field types of the `watcher.objects.fields` descriptors used by
AuditTemplate. -/
inductive FType where
  | integerT : FType
  | uuidT : FType
  | stringT : FType
  | flexListOfDictT : FType
  | objectT : String → FType
deriving DecidableEq, Repr

structure FieldDescriptor where
  ftype : FType
  nullable : Bool
deriving DecidableEq, Repr

def IntegerField (nullable : Bool) : FieldDescriptor := ⟨FType.integerT, nullable⟩

def UUIDField (nullable : Bool) : FieldDescriptor := ⟨FType.uuidT, nullable⟩

def StringField (nullable : Bool) : FieldDescriptor := ⟨FType.stringT, nullable⟩

def FlexibleListOfDictField (nullable : Bool) : FieldDescriptor := ⟨FType.flexListOfDictT, nullable⟩

def ObjectField (target : String) (nullable : Bool) : FieldDescriptor := ⟨FType.objectT target, nullable⟩

/-- An AuditTemplate instance: bound execution context, current field values,
and the ordered set of changed field names (the change tracker state). -/
structure AuditTemplate where
  ctx : Nat
  values : List (String × Value)
  changed : List String
deriving DecidableEq, Repr

namespace AuditTemplate

/-- Source line 64: `VERSION = '1.1'`. -/
def VERSION : String := "1.1"

/-- Source lines 68-79: the declared field schema at version 1.1. -/
def fields : List (String × FieldDescriptor) :=
  [("id", IntegerField false),
   ("uuid", UUIDField false),
   ("name", StringField false),
   ("description", StringField true),
   ("scope", FlexibleListOfDictField true),
   ("goal_id", IntegerField false),
   ("strategy_id", IntegerField true),
   ("goal", ObjectField "Goal" true),
   ("strategy", ObjectField "Strategy" true)]

/-- Source lines 81-84: relation fields with their target type and the scalar
foreign-key field backing each. -/
def object_fields : List (String × String × String) :=
  [("goal", "Goal", "goal_id"), ("strategy", "Strategy", "strategy_id")]

/-- The version 1.0 field set, per the source's version history comments
(lines 62-63: version 1.1 added only the 'goal' and 'strategy' object
fields). -/
def fields_1_0 : List (String × FieldDescriptor) :=
  [("id", IntegerField false),
   ("uuid", UUIDField false),
   ("name", StringField false),
   ("description", StringField true),
   ("scope", FlexibleListOfDictField true),
   ("goal_id", IntegerField false),
   ("strategy_id", IntegerField true)]

def fieldNames : List String := fields.map Prod.fst

def isObjectField (f : String) : Bool := (object_fields.map Prod.fst).contains f

def nonObjectFieldNames : List String := fieldNames.filter (fun f => !isObjectField f)

/-- Modelled from the spec: `AuditTemplate(context)` constructs a new instance
bound to the caller's context, with no fields set and an empty change set. -/
def new (c : Nat) : AuditTemplate := ⟨c, [], []⟩

/-- Modelled from the spec (§4.3, the base change tracker is not under src/):
a field write records the field name in the ordered changed set (duplicates
collapsed) unless the new value equals the current value, in which case it is
a no-op. -/
def set_field (s : AuditTemplate) (f : String) (v : Value) : AuditTemplate :=
  if alookup s.values f = some v then s
  else { s with
          values := setValue s.values f v,
          changed := if f ∈ s.changed then s.changed else s.changed ++ [f] }

/-- Modelled from the spec (§4.3): `obj_get_changes` returns the mapping of
changed field name to current value. -/
def obj_get_changes (s : AuditTemplate) : List (String × Value) :=
  s.changed.map (fun f => (f, (alookup s.values f).getD Value.vnull))

/-- Modelled from the spec (§4.3): `obj_reset_changes` clears the changed set
without altering field values. -/
def obj_reset_changes (s : AuditTemplate) : AuditTemplate := { s with changed := [] }

/-- Reading `self.uuid`: the instance's own uuid field, when it is set to a
string value. -/
def getSelfUuid (s : AuditTemplate) : Option String :=
  match alookup s.values "uuid" with
  | some (Value.vstr u) => some u
  | _ => none

end AuditTemplate

/-- The instances of the change-tracking lifecycle reachable from a *new*
instance by field assignments only: constructed, never loaded, never reset.
These are the instances `create()` is specified for. -/
inductive Fresh : AuditTemplate → Prop where
  | new : ∀ c, Fresh (AuditTemplate.new c)
  | set : ∀ s f v, Fresh s → Fresh (AuditTemplate.set_field s f v)

/-- Modelled from the spec: the Persistence Adapter (§6) is an external
collaborator; it is embedded as an in-memory store of raw records keyed by
their 'id' and 'uuid' attributes. -/
structure Db where
  records : List (List (String × Value))
  nextId : Int
deriving DecidableEq, Repr

/-- One call made to the Persistence Adapter, as observed by the adapter. -/
inductive DbCall where
  | createCall : List (String × Value) → DbCall
  | getByIdCall : Identity → Bool → DbCall
  | getByUuidCall : String → Bool → DbCall
  | updateCall : String → List (String × Value) → DbCall
  | destroyCall : String → DbCall
deriving DecidableEq, Repr

/-- Modelled from the spec: UUID generation for records created without one
(§3 lifecycle: "UUID generated if absent"). -/
def gen_uuid (db : Db) : String := "generated-uuid-" ++ toString db.nextId

/-- Modelled from the spec: adapter `create(type, values) -> raw_record`; the
adapter assigns the surrogate numeric id, generates a UUID if the supplied
values carry none, and stores and returns the resulting raw record. -/
def create_audit_template (db : Db) (values : List (String × Value)) :
    Db × List (String × Value) :=
  let u : Value :=
    match alookup values "uuid" with
    | some w => w
    | none => Value.vstr (gen_uuid db)
  let stored := setValue (setValue values "uuid" u) "id" (Value.vint db.nextId)
  (⟨db.records ++ [stored], db.nextId + 1⟩, stored)

def recordHasUuid (u : String) (r : List (String × Value)) : Bool :=
  alookup r "uuid" == some (Value.vstr u)

def recordHasId (i : Identity) (r : List (String × Value)) : Bool :=
  match alookup r "id", identToInt i with
  | some (Value.vint n), some m => n == m
  | _, _ => false

/-- Modelled from the spec: adapter `get_by_id(type, id, eager) -> raw_record
| NotFound`. -/
def get_audit_template_by_id (db : Db) (i : Identity) :
    Except WError (List (String × Value)) :=
  match db.records.find? (recordHasId i) with
  | some r => Except.ok r
  | none => Except.error WError.notFound

/-- Modelled from the spec: adapter `get_by_uuid(type, uuid, eager) ->
raw_record | NotFound`. -/
def get_audit_template_by_uuid (db : Db) (u : String) :
    Except WError (List (String × Value)) :=
  match db.records.find? (recordHasUuid u) with
  | some r => Except.ok r
  | none => Except.error WError.notFound

def applyDelta (r : List (String × Value)) (delta : List (String × Value)) :
    List (String × Value) :=
  delta.foldl (fun acc p => setValue acc p.1 p.2) r

/-- Modelled from the spec: adapter `update(type, uuid, delta) -> raw_record`;
applies the delta to the stored record with that uuid, or NotFound. -/
def update_audit_template (db : Db) (u : String) (delta : List (String × Value)) :
    Except WError (Db × List (String × Value)) :=
  match db.records.find? (recordHasUuid u) with
  | none => Except.error WError.notFound
  | some r =>
    Except.ok
      (⟨db.records.map (fun q => if recordHasUuid u q then applyDelta q delta else q),
        db.nextId⟩,
       applyDelta r delta)

/-- Modelled from the spec: adapter `destroy(type, uuid) -> void`; removes the
row with that uuid, or NotFound. -/
def destroy_audit_template (db : Db) (u : String) : Except WError Db :=
  if db.records.any (recordHasUuid u) then
    Except.ok ⟨db.records.filter (fun q => !recordHasUuid u q), db.nextId⟩
  else Except.error WError.notFound

namespace AuditTemplate

/-- Copy one declared scalar field from the raw record into the value map. -/
def copyStep (dbrec : List (String × Value)) (vals : List (String × Value))
    (f : String) : List (String × Value) :=
  match alookup dbrec f with
  | some v => setValue vals f v
  | none => vals

/-- Resolve one relation field from its backing scalar key: a set integer key
yields a resolved object reference, a null or absent key an explicit null
(spec §4.4: a null backing key resolves to an explicit absent value). -/
def resolveStep (dbrec : List (String × Value)) (vals : List (String × Value))
    (of : String × String × String) : List (String × Value) :=
  match alookup dbrec of.2.2 with
  | some (Value.vint n) => setValue vals of.1 (Value.vobj of.2.1 n)
  | _ => setValue vals of.1 Value.vnull

/-- Modelled from the spec: the base loader `_from_db_object` is not under
src/.  Per the spec's data flow, it loads every declared non-relation field
from the raw record, resolves all relation fields when `eager` is true, and
clears the change tracker (the instance is "clean"). -/
def _from_db_object (s : AuditTemplate) (dbrec : List (String × Value))
    (eager : Bool) : AuditTemplate :=
  let vals := nonObjectFieldNames.foldl (copyStep dbrec) s.values
  let vals2 := if eager then object_fields.foldl (resolveStep dbrec) vals else vals
  { s with values := vals2, changed := [] }

/-- Merge one field of the freshly loaded instance: overwrite only when the
loaded value differs from the current one. -/
def refreshStep (cur : List (String × Value)) (vals : List (String × Value))
    (f : String) : List (String × Value) :=
  match alookup cur f with
  | some v => if alookup vals f = some v then vals else setValue vals f v
  | none => vals

/-- Modelled from the spec: the base `obj_refresh` is not under src/.  It
merges only fields that differ from the loaded instance, updating in place
(src docstring lines 226-228); per §4.3 the change set is cleared after a
successful refresh. -/
def obj_refresh (s cur : AuditTemplate) : AuditTemplate :=
  { s with values := fieldNames.foldl (refreshStep cur.values) s.values, changed := [] }

/-- `AuditTemplate.get_by_id` (src lines 107-125): fetch the raw record by
integer id and build an instance bound to the given context. -/
def get_by_id (db : Db) (c : Nat) (audit_template_id : Identity) (eager : Bool) :
    List DbCall × Except WError AuditTemplate :=
  match get_audit_template_by_id db audit_template_id with
  | Except.error e => ([DbCall.getByIdCall audit_template_id eager], Except.error e)
  | Except.ok dbrec =>
    ([DbCall.getByIdCall audit_template_id eager],
     Except.ok (_from_db_object (new c) dbrec eager))

/-- `AuditTemplate.get_by_uuid` (src lines 127-145). -/
def get_by_uuid (db : Db) (c : Nat) (uuid : String) (eager : Bool) :
    List DbCall × Except WError AuditTemplate :=
  match get_audit_template_by_uuid db uuid with
  | Except.error e => ([DbCall.getByUuidCall uuid eager], Except.error e)
  | Except.ok dbrec =>
    ([DbCall.getByUuidCall uuid eager],
     Except.ok (_from_db_object (new c) dbrec eager))

/-- `AuditTemplate.get` (src lines 86-105): dispatch on the shape of the
identity, raising InvalidIdentity without touching the adapter otherwise. -/
def get (db : Db) (c : Nat) (audit_template_id : Identity) (eager : Bool) :
    List DbCall × Except WError AuditTemplate :=
  if is_int_like audit_template_id then
    get_by_id db c audit_template_id eager
  else if is_uuid_like audit_template_id then
    get_by_uuid db c (identStr audit_template_id) eager
  else
    ([], Except.error (WError.invalidIdentity audit_template_id))

/-- `AuditTemplate.create` (src lines 193-203): send `obj_get_changes()` to
the adapter's create, then reload the instance eagerly from the returned
record (src comment lines 201-202: so notifications can include relation
data). -/
def create (db : Db) (s : AuditTemplate) : Db × List DbCall × AuditTemplate :=
  let values := obj_get_changes s
  let res := create_audit_template db values
  (res.1, [DbCall.createCall values], _from_db_object s res.2 true)

/-- Result of a self-mutating operation: the database afterwards, the adapter
calls issued, the caller's instance afterwards (unchanged when the operation
failed), and the failure, if any. -/
structure MResult where
  db : Db
  calls : List DbCall
  self : AuditTemplate
  err : Option WError
deriving DecidableEq, Repr

/-- `AuditTemplate.save` (src lines 210-220): send `obj_get_changes()` to the
adapter's update keyed by `self.uuid`, then reset the change set. -/
def save (db : Db) (s : AuditTemplate) : MResult :=
  match getSelfUuid s with
  | none => ⟨db, [], s, some WError.fieldNotSet⟩
  | some u =>
    let updates := obj_get_changes s
    match update_audit_template db u updates with
    | Except.error e => ⟨db, [DbCall.updateCall u updates], s, some e⟩
    | Except.ok p => ⟨p.1, [DbCall.updateCall u updates], obj_reset_changes s, none⟩

/-- `AuditTemplate.destroy` (src lines 205-208): remove the row keyed by
`self.uuid`, then reset the change set. -/
def destroy (db : Db) (s : AuditTemplate) : MResult :=
  match getSelfUuid s with
  | none => ⟨db, [], s, some WError.fieldNotSet⟩
  | some u =>
    match destroy_audit_template db u with
    | Except.error e => ⟨db, [DbCall.destroyCall u], s, some e⟩
    | Except.ok db2 => ⟨db2, [DbCall.destroyCall u], obj_reset_changes s, none⟩

/-- `AuditTemplate.refresh` (src lines 222-232): re-fetch by the instance's
own uuid in its own context, forwarding the eager flag, then merge via
`obj_refresh`. -/
def refresh (db : Db) (s : AuditTemplate) (eager : Bool) : MResult :=
  match getSelfUuid s with
  | none => ⟨db, [], s, some WError.fieldNotSet⟩
  | some u =>
    match get_by_uuid db s.ctx u eager with
    | (calls, Except.error e) => ⟨db, calls, s, some e⟩
    | (calls, Except.ok cur) => ⟨db, calls, obj_refresh s cur, none⟩

end AuditTemplate

theorem copyStep_pres (dbrec vals : List (String × Value)) (f g : String)
    (h : g ≠ f) : alookup (AuditTemplate.copyStep dbrec vals f) g = alookup vals g := by
  unfold AuditTemplate.copyStep
  split
  · exact alookup_setValue_ne _ _ _ _ h
  · rfl

theorem copyStep_self (dbrec vals : List (String × Value)) (f : String) :
    alookup (AuditTemplate.copyStep dbrec vals f) f =
      match alookup dbrec f with
      | some v => some v
      | none => alookup vals f := by
  unfold AuditTemplate.copyStep
  cases h : alookup dbrec f
  · rfl
  · exact alookup_setValue_self _ _ _

theorem refreshStep_pres (cur vals : List (String × Value)) (f g : String)
    (h : g ≠ f) : alookup (AuditTemplate.refreshStep cur vals f) g = alookup vals g := by
  unfold AuditTemplate.refreshStep
  split
  · split
    · rfl
    · exact alookup_setValue_ne _ _ _ _ h
  · rfl

theorem refreshStep_self (cur vals : List (String × Value)) (f : String) :
    alookup (AuditTemplate.refreshStep cur vals f) f =
      match alookup cur f with
      | some v => some v
      | none => alookup vals f := by
  unfold AuditTemplate.refreshStep
  cases h : alookup cur f with
  | none => rfl
  | some v =>
    by_cases he : alookup vals f = some v
    · simp [he]
    · simp [he, alookup_setValue_self]

/-- Lookup after a left fold of per-field steps over a duplicate-free name
list: a name in the list ends up at the source's value when the source has
one, and is untouched otherwise. -/
theorem foldl_step_alookup (src : String → Option Value)
    (stp : List (String × Value) → String → List (String × Value))
    (hpres : ∀ vals f g, g ≠ f → alookup (stp vals f) g = alookup vals g)
    (hself : ∀ vals f, alookup (stp vals f) f =
      match src f with
      | some v => some v
      | none => alookup vals f) :
    ∀ (names : List String), names.Nodup →
      ∀ (vals : List (String × Value)) (g : String),
      alookup (names.foldl stp vals) g =
        if g ∈ names then
          match src g with
          | some v => some v
          | none => alookup vals g
        else alookup vals g := by
  intro names
  induction names with
  | nil => intro _ vals g; simp
  | cons a rest ih =>
    intro hnd vals g
    have hnd' : rest.Nodup := (List.nodup_cons.mp hnd).2
    have hna : a ∉ rest := (List.nodup_cons.mp hnd).1
    simp only [List.foldl_cons]
    by_cases hga : g = a
    · subst hga
      rw [ih hnd' (stp vals g) g, if_neg hna, hself,
        if_pos (List.mem_cons_self g rest)]
    · rw [ih hnd' (stp vals a) g]
      by_cases hgr : g ∈ rest
      · rw [if_pos hgr, if_pos (List.mem_cons.mpr (Or.inr hgr))]
        cases hsrc : src g with
        | none =>
          simp only []
          exact hpres vals a g hga
        | some v => rfl
      · rw [if_neg hgr, if_neg (by simp [List.mem_cons, hga, hgr])]
        exact hpres vals a g hga

/-- A fresh instance's changed set holds exactly the fields that are set. -/
theorem fresh_changed_iff (s : AuditTemplate) (hs : Fresh s) (f : String) :
    f ∈ s.changed ↔ (alookup s.values f).isSome := by
  induction hs with
  | new c => simp [AuditTemplate.new, alookup]
  | set t g v ht ih =>
    unfold AuditTemplate.set_field
    split
    · exact ih
    · simp only []
      by_cases hfg : f = g
      · subst hfg
        constructor
        · intro _
          rw [alookup_setValue_self]
          rfl
        · intro _
          by_cases hin : f ∈ t.changed
          · simp [hin]
          · simp [hin]
      · rw [alookup_setValue_ne _ _ _ _ hfg]
        by_cases hin : g ∈ t.changed
        · simpa [hin] using ih
        · simp only [if_neg hin, List.mem_append, List.mem_singleton, hfg,
            or_false]
          exact ih

theorem resolveStep_pres (dbrec vals : List (String × Value))
    (of : String × String × String) (g : String) (h : g ≠ of.1) :
    alookup (AuditTemplate.resolveStep dbrec vals of) g = alookup vals g := by
  unfold AuditTemplate.resolveStep
  split
  · exact alookup_setValue_ne _ _ _ _ h
  · exact alookup_setValue_ne _ _ _ _ h

theorem resolveStep_isSome_self (dbrec vals : List (String × Value))
    (of : String × String × String) :
    (alookup (AuditTemplate.resolveStep dbrec vals of) of.1).isSome := by
  unfold AuditTemplate.resolveStep
  split
  · rw [alookup_setValue_self]; rfl
  · rw [alookup_setValue_self]; rfl

theorem resolveFold_pres (dbrec vals : List (String × Value)) (g : String)
    (hg : g ≠ "goal") (hs : g ≠ "strategy") :
    alookup (AuditTemplate.object_fields.foldl (AuditTemplate.resolveStep dbrec) vals) g =
      alookup vals g := by
  simp only [AuditTemplate.object_fields, List.foldl_cons, List.foldl_nil]
  rw [resolveStep_pres _ _ _ _ hs, resolveStep_pres _ _ _ _ hg]

theorem resolveFold_goal_isSome (dbrec vals : List (String × Value)) :
    (alookup (AuditTemplate.object_fields.foldl (AuditTemplate.resolveStep dbrec) vals)
      "goal").isSome := by
  simp only [AuditTemplate.object_fields, List.foldl_cons, List.foldl_nil]
  rw [resolveStep_pres _ _ _ _ (by decide)]
  exact resolveStep_isSome_self _ _ _

theorem resolveFold_strategy_isSome (dbrec vals : List (String × Value)) :
    (alookup (AuditTemplate.object_fields.foldl (AuditTemplate.resolveStep dbrec) vals)
      "strategy").isSome := by
  simp only [AuditTemplate.object_fields, List.foldl_cons, List.foldl_nil]
  exact resolveStep_isSome_self _ _ _

/-- Updating with an empty delta returns the record and store unchanged. -/
theorem update_empty_delta (db : Db) (u : String) (r : List (String × Value))
    (hfind : db.records.find? (recordHasUuid u) = some r) :
    update_audit_template db u [] = Except.ok (db, r) := by
  unfold update_audit_template
  rw [hfind]
  simp [applyDelta]

/-- On a fresh instance the change delta is, as a map, the full current field
set. -/
theorem fresh_alookup_changes (s : AuditTemplate) (hs : Fresh s) (f : String) :
    alookup (AuditTemplate.obj_get_changes s) f = alookup s.values f := by
  unfold AuditTemplate.obj_get_changes
  rw [alookup_map_fn]
  by_cases hin : f ∈ s.changed
  · rw [if_pos hin]
    have hsome := (fresh_changed_iff s hs f).mp hin
    cases hv : alookup s.values f with
    | none => rw [hv] at hsome; simp at hsome
    | some v => simp [hv]
  · rw [if_neg hin]
    have hnone : ¬ (alookup s.values f).isSome :=
      fun hh => hin ((fresh_changed_iff s hs f).mpr hh)
    cases hv : alookup s.values f with
    | none => rfl
    | some v => rw [hv] at hnone; simp at hnone

/-- C8: the 1.0 → 1.1 minor version bump of AuditTemplate is purely additive:
the 1.1 field set is exactly the 1.0 field set followed by the two new
nullable object-reference fields 'goal' and 'strategy', whose backing scalar
keys 'goal_id' and 'strategy_id' are already declared (with unchanged types)
in 1.0; no 1.0 field is removed or retyped. -/
theorem version_additive_1_0_to_1_1 :
    AuditTemplate.VERSION = "1.1" ∧
    AuditTemplate.fields =
      AuditTemplate.fields_1_0 ++
        [("goal", ObjectField "Goal" true), ("strategy", ObjectField "Strategy" true)] ∧
    (ObjectField "Goal" true).nullable = true ∧
    (ObjectField "Strategy" true).nullable = true ∧
    AuditTemplate.object_fields =
      [("goal", "Goal", "goal_id"), ("strategy", "Strategy", "strategy_id")] ∧
    ("goal_id", IntegerField false) ∈ AuditTemplate.fields_1_0 ∧
    ("strategy_id", IntegerField true) ∈ AuditTemplate.fields_1_0 :=
  ⟨rfl, by decide, rfl, rfl, rfl, by decide, by decide⟩

/-- C10: an identity that is neither integer-like nor UUID-like makes `get`
fail with InvalidIdentity while issuing no Persistence Adapter call at all
(the call trace is empty). -/
theorem get_invalid_identity_no_fetch (db : Db) (c : Nat) (i : Identity)
    (eager : Bool) (hint : is_int_like i = false)
    (huuid : is_uuid_like i = false) :
    AuditTemplate.get db c i eager =
      ([], Except.error (WError.invalidIdentity i)) := by
  unfold AuditTemplate.get
  simp [hint, huuid]

theorem get_invalid_identity_no_fetch_witness :
    AuditTemplate.get ⟨[], 1⟩ 0 (Identity.istr "not-an-id!") false =
      ([], Except.error (WError.invalidIdentity (Identity.istr "not-an-id!"))) :=
  get_invalid_identity_no_fetch ⟨[], 1⟩ 0 (Identity.istr "not-an-id!") false
    (by decide) (by decide)

/-- C2: `get` resolves via the numeric-id path (`get_by_id`) whenever the
identity is integer-like, via the UUID path (`get_by_uuid`) whenever it is
UUID-shaped (a UUID-shaped identity is never integer-like), and fails with
InvalidIdentity for every other value. -/
theorem get_identity_dispatch (db : Db) (c : Nat) (i : Identity) (eager : Bool) :
    (is_int_like i = true →
      AuditTemplate.get db c i eager = AuditTemplate.get_by_id db c i eager) ∧
    (is_uuid_like i = true →
      AuditTemplate.get db c i eager =
        AuditTemplate.get_by_uuid db c (identStr i) eager) ∧
    (is_int_like i = false → is_uuid_like i = false →
      AuditTemplate.get db c i eager =
        ([], Except.error (WError.invalidIdentity i))) := by
  refine ⟨?_, ?_, ?_⟩
  · intro h
    unfold AuditTemplate.get
    simp [h]
  · intro h
    have hint : is_int_like i = false := by
      cases i with
      | inum n => simp [is_uuid_like] at h
      | istr t =>
        simp only [is_int_like]
        exact isUuidChars_not_int _ (by simpa [is_uuid_like] using h)
    unfold AuditTemplate.get
    simp [hint, h]
  · intro h1 h2
    unfold AuditTemplate.get
    simp [h1, h2]

/-- C1: for every new (fresh) instance, `create` issues a single adapter
create call whose payload agrees with the instance's full current field set
at every field (the delta of a fresh instance *is* the full field set), and
when the instance carries no uuid the created instance ends up with the
generated one. -/
theorem create_sends_full_field_set (db : Db) (s : AuditTemplate)
    (hs : Fresh s) :
    (AuditTemplate.create db s).2.1 =
      [DbCall.createCall (AuditTemplate.obj_get_changes s)] ∧
    (∀ f, alookup (AuditTemplate.obj_get_changes s) f = alookup s.values f) ∧
    (alookup s.values "uuid" = none →
      alookup (AuditTemplate.create db s).2.2.values "uuid" =
        some (Value.vstr (gen_uuid db))) := by
  refine ⟨rfl, fresh_alookup_changes s hs, ?_⟩
  intro hnone
  have hvnone : alookup (AuditTemplate.obj_get_changes s) "uuid" = none := by
    rw [fresh_alookup_changes s hs]
    exact hnone
  have hstored : alookup
      (create_audit_template db (AuditTemplate.obj_get_changes s)).2 "uuid" =
      some (Value.vstr (gen_uuid db)) := by
    simp only [create_audit_template, hvnone]
    rw [alookup_setValue_ne _ _ _ _ (by decide), alookup_setValue_self]
  show alookup (AuditTemplate._from_db_object s
      (create_audit_template db (AuditTemplate.obj_get_changes s)).2 true).values
      "uuid" = some (Value.vstr (gen_uuid db))
  simp only [AuditTemplate._from_db_object, if_true]
  rw [resolveFold_pres _ _ _ (by decide) (by decide)]
  rw [foldl_step_alookup
      (alookup (create_audit_template db (AuditTemplate.obj_get_changes s)).2)
      (AuditTemplate.copyStep
        (create_audit_template db (AuditTemplate.obj_get_changes s)).2)
      (copyStep_pres _) (copyStep_self _)
      AuditTemplate.nonObjectFieldNames (by decide) s.values "uuid"]
  rw [if_pos (by decide : "uuid" ∈ AuditTemplate.nonObjectFieldNames)]
  rw [hstored]

theorem create_sends_full_field_set_witness :
    (alookup (AuditTemplate.obj_get_changes
        (AuditTemplate.set_field (AuditTemplate.new 0) "name" (Value.vstr "x")))
        "name" =
      alookup (AuditTemplate.set_field (AuditTemplate.new 0) "name"
        (Value.vstr "x")).values "name") ∧
    alookup (AuditTemplate.create ⟨[], 1⟩
        (AuditTemplate.set_field (AuditTemplate.new 0) "name"
          (Value.vstr "x"))).2.2.values "uuid" =
      some (Value.vstr (gen_uuid ⟨[], 1⟩)) :=
  ⟨(create_sends_full_field_set ⟨[], 1⟩ _
      (Fresh.set _ _ _ (Fresh.new 0))).2.1 "name",
   (create_sends_full_field_set ⟨[], 1⟩ _
      (Fresh.set _ _ _ (Fresh.new 0))).2.2 (by decide)⟩

/-- C3: for a previously created instance (its uuid resolves in the store),
`save` sends exactly the change tracker's delta to the adapter's update and,
on success, clears the change set while leaving every field value as it
was. -/
theorem save_sends_delta_and_resets (db : Db) (s : AuditTemplate) (u : String)
    (r : List (String × Value))
    (hu : AuditTemplate.getSelfUuid s = some u)
    (hfind : db.records.find? (recordHasUuid u) = some r) :
    (AuditTemplate.save db s).calls =
      [DbCall.updateCall u (AuditTemplate.obj_get_changes s)] ∧
    (AuditTemplate.save db s).err = none ∧
    (AuditTemplate.save db s).self.values = s.values ∧
    (AuditTemplate.save db s).self.changed = [] := by
  simp only [AuditTemplate.save, hu, update_audit_template, hfind]
  exact ⟨by trivial, by trivial, by trivial, by trivial⟩

theorem save_sends_delta_and_resets_witness :
    ((AuditTemplate.save ⟨[[("uuid", Value.vstr "u1"), ("name", Value.vstr "old")]], 2⟩
        ⟨0, [("uuid", Value.vstr "u1"), ("name", Value.vstr "n")], ["name"]⟩).calls =
      [DbCall.updateCall "u1" (AuditTemplate.obj_get_changes
        ⟨0, [("uuid", Value.vstr "u1"), ("name", Value.vstr "n")], ["name"]⟩)]) ∧
    ((AuditTemplate.save ⟨[[("uuid", Value.vstr "u1"), ("name", Value.vstr "old")]], 2⟩
        ⟨0, [("uuid", Value.vstr "u1"), ("name", Value.vstr "n")], ["name"]⟩).err = none) ∧
    ((AuditTemplate.save ⟨[[("uuid", Value.vstr "u1"), ("name", Value.vstr "old")]], 2⟩
        ⟨0, [("uuid", Value.vstr "u1"), ("name", Value.vstr "n")], ["name"]⟩).self.values =
      [("uuid", Value.vstr "u1"), ("name", Value.vstr "n")]) ∧
    ((AuditTemplate.save ⟨[[("uuid", Value.vstr "u1"), ("name", Value.vstr "old")]], 2⟩
        ⟨0, [("uuid", Value.vstr "u1"), ("name", Value.vstr "n")], ["name"]⟩).self.changed = []) :=
  save_sends_delta_and_resets
    ⟨[[("uuid", Value.vstr "u1"), ("name", Value.vstr "old")]], 2⟩
    ⟨0, [("uuid", Value.vstr "u1"), ("name", Value.vstr "n")], ["name"]⟩
    "u1" [("uuid", Value.vstr "u1"), ("name", Value.vstr "old")]
    (by decide) (by decide)

/-- C4: saving with an empty change set does not error and alters neither the
persisted store nor the instance (idempotent empty save). -/
theorem save_empty_changes_noop (db : Db) (s : AuditTemplate) (u : String)
    (r : List (String × Value))
    (hch : s.changed = [])
    (hu : AuditTemplate.getSelfUuid s = some u)
    (hfind : db.records.find? (recordHasUuid u) = some r) :
    (AuditTemplate.save db s).err = none ∧
    (AuditTemplate.save db s).db = db ∧
    (AuditTemplate.save db s).self = s := by
  have hchanges : AuditTemplate.obj_get_changes s = [] := by
    unfold AuditTemplate.obj_get_changes
    rw [hch]
    rfl
  have hreset : AuditTemplate.obj_reset_changes s = s := by
    unfold AuditTemplate.obj_reset_changes
    cases s with
    | mk c vals ch =>
      simp only at hch
      rw [hch]
  simp only [AuditTemplate.save, hu, hchanges,
    update_empty_delta db u r hfind, hreset]
  exact ⟨by trivial, by trivial, by trivial⟩

theorem save_empty_changes_noop_witness :
    ((AuditTemplate.save ⟨[[("uuid", Value.vstr "u1"), ("name", Value.vstr "old")]], 2⟩
        ⟨0, [("uuid", Value.vstr "u1")], []⟩).err = none) ∧
    ((AuditTemplate.save ⟨[[("uuid", Value.vstr "u1"), ("name", Value.vstr "old")]], 2⟩
        ⟨0, [("uuid", Value.vstr "u1")], []⟩).db =
      ⟨[[("uuid", Value.vstr "u1"), ("name", Value.vstr "old")]], 2⟩) ∧
    ((AuditTemplate.save ⟨[[("uuid", Value.vstr "u1"), ("name", Value.vstr "old")]], 2⟩
        ⟨0, [("uuid", Value.vstr "u1")], []⟩).self =
      ⟨0, [("uuid", Value.vstr "u1")], []⟩) :=
  save_empty_changes_noop
    ⟨[[("uuid", Value.vstr "u1"), ("name", Value.vstr "old")]], 2⟩
    ⟨0, [("uuid", Value.vstr "u1")], []⟩ "u1"
    [("uuid", Value.vstr "u1"), ("name", Value.vstr "old")]
    rfl (by decide) (by decide)

/-- C5: `create` reloads the instance from the adapter's returned record with
eager = true, so both relation fields 'goal' and 'strategy' hold explicit
resolved values afterwards, and the single adapter call made is the create
itself — no further round trip. -/
theorem create_reloads_eagerly (db : Db) (s : AuditTemplate) :
    (AuditTemplate.create db s).2.2 =
      AuditTemplate._from_db_object s
        (create_audit_template db (AuditTemplate.obj_get_changes s)).2 true ∧
    (alookup (AuditTemplate.create db s).2.2.values "goal").isSome ∧
    (alookup (AuditTemplate.create db s).2.2.values "strategy").isSome ∧
    (AuditTemplate.create db s).2.1 =
      [DbCall.createCall (AuditTemplate.obj_get_changes s)] := by
  refine ⟨rfl, ?_, ?_, rfl⟩
  · show (alookup (AuditTemplate._from_db_object s
        (create_audit_template db (AuditTemplate.obj_get_changes s)).2 true).values
        "goal").isSome
    simp only [AuditTemplate._from_db_object, if_true]
    exact resolveFold_goal_isSome _ _
  · show (alookup (AuditTemplate._from_db_object s
        (create_audit_template db (AuditTemplate.obj_get_changes s)).2 true).values
        "strategy").isSome
    simp only [AuditTemplate._from_db_object, if_true]
    exact resolveFold_strategy_isSome _ _

/-- C7: when the adapter's update fails, `save` reports that failure and the
instance's in-memory state is exactly as before: same store, same field
values, same (uncleared) change set. -/
theorem save_failure_preserves_state (db : Db) (s : AuditTemplate) (u : String)
    (e : WError)
    (hu : AuditTemplate.getSelfUuid s = some u)
    (hfail : update_audit_template db u (AuditTemplate.obj_get_changes s) =
      Except.error e) :
    AuditTemplate.save db s =
      ⟨db, [DbCall.updateCall u (AuditTemplate.obj_get_changes s)], s, some e⟩ := by
  simp only [AuditTemplate.save, hu, hfail]

theorem save_failure_preserves_state_witness :
    AuditTemplate.save ⟨[], 1⟩
        ⟨0, [("uuid", Value.vstr "u1"), ("name", Value.vstr "n")], ["name"]⟩ =
      ⟨⟨[], 1⟩,
       [DbCall.updateCall "u1" (AuditTemplate.obj_get_changes
         ⟨0, [("uuid", Value.vstr "u1"), ("name", Value.vstr "n")], ["name"]⟩)],
       ⟨0, [("uuid", Value.vstr "u1"), ("name", Value.vstr "n")], ["name"]⟩,
       some WError.notFound⟩ :=
  save_failure_preserves_state ⟨[], 1⟩
    ⟨0, [("uuid", Value.vstr "u1"), ("name", Value.vstr "n")], ["name"]⟩
    "u1" WError.notFound (by decide) rfl

/-- C9: `destroy` removes, via the adapter, exactly the row keyed by the
instance's own uuid, then clears the change set; the instance's field values
themselves are left unchanged. -/
theorem destroy_removes_row_keeps_values (db : Db) (s : AuditTemplate)
    (u : String)
    (hu : AuditTemplate.getSelfUuid s = some u)
    (hex : db.records.any (recordHasUuid u) = true) :
    (AuditTemplate.destroy db s).calls = [DbCall.destroyCall u] ∧
    (AuditTemplate.destroy db s).err = none ∧
    (AuditTemplate.destroy db s).db.records =
      db.records.filter (fun q => !recordHasUuid u q) ∧
    (AuditTemplate.destroy db s).self.values = s.values ∧
    (AuditTemplate.destroy db s).self.changed = [] := by
  simp only [AuditTemplate.destroy, hu, destroy_audit_template, if_pos hex]
  exact ⟨by trivial, by trivial, by trivial, by trivial, by trivial⟩

theorem destroy_removes_row_keeps_values_witness :
    ((AuditTemplate.destroy ⟨[[("uuid", Value.vstr "u1")]], 2⟩
        ⟨0, [("uuid", Value.vstr "u1"), ("name", Value.vstr "n")], ["name"]⟩).calls =
      [DbCall.destroyCall "u1"]) ∧
    ((AuditTemplate.destroy ⟨[[("uuid", Value.vstr "u1")]], 2⟩
        ⟨0, [("uuid", Value.vstr "u1"), ("name", Value.vstr "n")], ["name"]⟩).err = none) ∧
    ((AuditTemplate.destroy ⟨[[("uuid", Value.vstr "u1")]], 2⟩
        ⟨0, [("uuid", Value.vstr "u1"), ("name", Value.vstr "n")], ["name"]⟩).db.records =
      List.filter (fun q => !recordHasUuid "u1" q) [[("uuid", Value.vstr "u1")]]) ∧
    ((AuditTemplate.destroy ⟨[[("uuid", Value.vstr "u1")]], 2⟩
        ⟨0, [("uuid", Value.vstr "u1"), ("name", Value.vstr "n")], ["name"]⟩).self.values =
      [("uuid", Value.vstr "u1"), ("name", Value.vstr "n")]) ∧
    ((AuditTemplate.destroy ⟨[[("uuid", Value.vstr "u1")]], 2⟩
        ⟨0, [("uuid", Value.vstr "u1"), ("name", Value.vstr "n")], ["name"]⟩).self.changed = []) :=
  destroy_removes_row_keeps_values ⟨[[("uuid", Value.vstr "u1")]], 2⟩
    ⟨0, [("uuid", Value.vstr "u1"), ("name", Value.vstr "n")], ["name"]⟩
    "u1" (by decide) (by decide)

/-- C6: `refresh` re-fetches by the instance's own uuid, in its own context
and forwarding the eager flag (the single adapter call is a get-by-uuid with
that uuid and flag), then merges in place: any declared field carried by the
freshly loaded instance ends up at the loaded value (so fields that differ
are updated), and any field on which the loaded instance agrees with the
current one keeps its current value untouched. -/
theorem refresh_refetches_and_merges (db : Db) (s : AuditTemplate)
    (eager : Bool) (u : String) (r : List (String × Value))
    (hu : AuditTemplate.getSelfUuid s = some u)
    (hfind : db.records.find? (recordHasUuid u) = some r) :
    (AuditTemplate.refresh db s eager).calls = [DbCall.getByUuidCall u eager] ∧
    (AuditTemplate.refresh db s eager).err = none ∧
    (AuditTemplate.refresh db s eager).db = db ∧
    (AuditTemplate.refresh db s eager).self =
      AuditTemplate.obj_refresh s
        (AuditTemplate._from_db_object (AuditTemplate.new s.ctx) r eager) ∧
    (∀ f, alookup (AuditTemplate._from_db_object
          (AuditTemplate.new s.ctx) r eager).values f = alookup s.values f →
        alookup (AuditTemplate.refresh db s eager).self.values f =
          alookup s.values f) ∧
    (∀ f v, f ∈ AuditTemplate.fieldNames →
        alookup (AuditTemplate._from_db_object
          (AuditTemplate.new s.ctx) r eager).values f = some v →
        alookup (AuditTemplate.refresh db s eager).self.values f = some v) := by
  have hred : AuditTemplate.refresh db s eager =
      ⟨db, [DbCall.getByUuidCall u eager],
       AuditTemplate.obj_refresh s
         (AuditTemplate._from_db_object (AuditTemplate.new s.ctx) r eager),
       none⟩ := by
    simp only [AuditTemplate.refresh, hu, AuditTemplate.get_by_uuid,
      get_audit_template_by_uuid, hfind]
  rw [hred]
  refine ⟨rfl, rfl, rfl, rfl, ?_, ?_⟩
  · intro f heq
    simp only [AuditTemplate.obj_refresh]
    rw [foldl_step_alookup
        (alookup (AuditTemplate._from_db_object (AuditTemplate.new s.ctx) r eager).values)
        (AuditTemplate.refreshStep
          (AuditTemplate._from_db_object (AuditTemplate.new s.ctx) r eager).values)
        (refreshStep_pres _) (refreshStep_self _)
        AuditTemplate.fieldNames (by decide) s.values f]
    by_cases hmem : f ∈ AuditTemplate.fieldNames
    · rw [if_pos hmem]
      cases hv : alookup (AuditTemplate._from_db_object
          (AuditTemplate.new s.ctx) r eager).values f with
      | none => rfl
      | some v =>
        rw [hv] at heq
        exact heq
    · rw [if_neg hmem]
  · intro f v hmem hv
    simp only [AuditTemplate.obj_refresh]
    rw [foldl_step_alookup
        (alookup (AuditTemplate._from_db_object (AuditTemplate.new s.ctx) r eager).values)
        (AuditTemplate.refreshStep
          (AuditTemplate._from_db_object (AuditTemplate.new s.ctx) r eager).values)
        (refreshStep_pres _) (refreshStep_self _)
        AuditTemplate.fieldNames (by decide) s.values f]
    rw [if_pos hmem, hv]

theorem refresh_refetches_and_merges_witness :
    ((AuditTemplate.refresh ⟨[[("uuid", Value.vstr "u1"), ("name", Value.vstr "new")]], 2⟩
        ⟨7, [("uuid", Value.vstr "u1"), ("name", Value.vstr "old")], []⟩ false).calls =
      [DbCall.getByUuidCall "u1" false]) ∧
    ((AuditTemplate.refresh ⟨[[("uuid", Value.vstr "u1"), ("name", Value.vstr "new")]], 2⟩
        ⟨7, [("uuid", Value.vstr "u1"), ("name", Value.vstr "old")], []⟩ false).err = none) ∧
    (alookup (AuditTemplate.refresh ⟨[[("uuid", Value.vstr "u1"), ("name", Value.vstr "new")]], 2⟩
        ⟨7, [("uuid", Value.vstr "u1"), ("name", Value.vstr "old")], []⟩ false).self.values
        "name" = some (Value.vstr "new")) :=
  have h := refresh_refetches_and_merges
    ⟨[[("uuid", Value.vstr "u1"), ("name", Value.vstr "new")]], 2⟩
    ⟨7, [("uuid", Value.vstr "u1"), ("name", Value.vstr "old")], []⟩ false "u1"
    [("uuid", Value.vstr "u1"), ("name", Value.vstr "new")]
    (by decide) (by decide)
  ⟨h.1, h.2.1, h.2.2.2.2.2 "name" (Value.vstr "new") (by decide) (by decide)⟩

theorem get_identity_dispatch_witness :
    (AuditTemplate.get ⟨[], 1⟩ 0 (Identity.istr "123") false =
      AuditTemplate.get_by_id ⟨[], 1⟩ 0 (Identity.istr "123") false) ∧
    (AuditTemplate.get ⟨[], 1⟩ 0
        (Identity.istr "550e8400-e29b-41d4-a716-446655440000") false =
      AuditTemplate.get_by_uuid ⟨[], 1⟩ 0
        "550e8400-e29b-41d4-a716-446655440000" false) ∧
    (AuditTemplate.get ⟨[], 1⟩ 0 (Identity.istr "not-an-id?") false =
      ([], Except.error (WError.invalidIdentity (Identity.istr "not-an-id?")))) :=
  ⟨(get_identity_dispatch ⟨[], 1⟩ 0 (Identity.istr "123") false).1 (by decide),
   (get_identity_dispatch ⟨[], 1⟩ 0
      (Identity.istr "550e8400-e29b-41d4-a716-446655440000") false).2.1 (by decide),
   (get_identity_dispatch ⟨[], 1⟩ 0 (Identity.istr "not-an-id?") false).2.2
      (by decide) (by decide)⟩

end Watcher
